import Mathlib

/-!
Shallow embedding of the two Python scripts of this repository:

* src/dev/src/bringup/bringup/spawn_demo.py (class CreateWorld)
* src/Tutorial/dev/build/py_srvcli/build/lib/py_srvcli/client_member_function.py
  (class MinimalClientAsync and its main function)

Python float values are modelled as rationals; the builtin float() applied to a
numeric value is the identity under this modelling.  Python dicts with a fixed
key set are modelled as structures with Option fields (a missing key is none,
and reading it raises KeyError).  Fallible Python code is embedded as functions
into Except Exc.  The random module is modelled as an input: a structure
holding the value returned by the single randint call and the stream of values
returned by successive random.random() calls.
-/

namespace SpawnDemo

/-- A Python exception, identified by kind and message. -/
inductive Exc where
  | keyError (key : String)
  | valueError (msg : String)
  | indexError
  | generic (msg : String)
  deriving Repr, DecidableEq

/-- Render an exception the way an f-string would show it in a log message. -/
def Exc.msg : Exc → String
  | .keyError k => "KeyError: " ++ k
  | .valueError m => "ValueError: " ++ m
  | .indexError => "IndexError"
  | .generic m => m

/-- geometry_msgs.msg.Point, as built in spawn_golfballs. -/
structure Point where
  x : ℚ
  y : ℚ
  z : ℚ
  deriving Repr, DecidableEq

/-- A quaternion value, as produced by euler_to_quaternion and stored in the
orientation entry of a pose dict. -/
structure Quaternion where
  x : ℚ
  y : ℚ
  z : ℚ
  w : ℚ
  deriving Repr, DecidableEq

/-- A pose dict as passed to CreateWorld.spawn.  The Python dicts use the keys
"x", "y", "z" and optionally "orientation"; a none field models an absent key,
whose lookup raises KeyError. -/
structure PoseDict where
  x : Option ℚ
  y : Option ℚ
  z : Option ℚ
  orientation : Option Quaternion
  deriving Repr, DecidableEq

/-- Dict lookup pose[key]: returns the value or raises KeyError(key). -/
def dictGet (v : Option ℚ) (key : String) : Except Exc ℚ :=
  match v with
  | some q => Except.ok q
  | none => Except.error (Exc.keyError key)

/-- A SpawnEntity request as filled in by CreateWorld.spawn.  The orientation
field is none when the request keeps the message-default orientation (the
KeyError branch where pose has no "orientation" key). -/
structure SpawnRequest where
  name : String
  xml : String
  position : Point
  orientation : Option Quaternion
  deriving Repr, DecidableEq

/-- CreateWorld.spawn, up to issuing the request: builds the SpawnEntity
request from name, xml and the pose dict.  Position keys are read outside any
try block, so a missing "x", "y" or "z" raises; the orientation lookup is
wrapped in try/except KeyError: pass, so a pose without that key leaves the
orientation at its default.  The returned request is the one passed to
client.call_async. -/
def spawn (name : String) (xml : String) (pose : PoseDict) :
    Except Exc SpawnRequest := do
  let px ← dictGet pose.x "x"
  let py ← dictGet pose.y "y"
  let pz ← dictGet pose.z "z"
  match pose.orientation with
  | some q =>
      Except.ok { name := name, xml := xml,
                  position := { x := px, y := py, z := pz },
                  orientation := some q }
  | none =>
      Except.ok { name := name, xml := xml,
                  position := { x := px, y := py, z := pz },
                  orientation := none }

/-- Modelled from the spec: helpers.functions.feet_to_meters is imported by
spawn_demo.py but the helpers package is not under src/.  The spec calls it a
feet-to-meters conversion, a few lines of arithmetic; modelled as the standard
conversion, one foot = 0.3048 meters. -/
def feet_to_meters (feet : ℚ) : ℚ :=
  feet * (3048 / 10000)

/-- The side length of the golf-ball square: dist = feet_to_meters(75). -/
def dist : ℚ :=
  feet_to_meters 75

/-- The random module as consumed by spawn_golfballs: the result of the single
random.randint(30, 60) call and the stream of random.random() results in call
order. -/
structure RNG where
  randint : ℕ → ℕ → ℕ
  random : ℕ → ℚ

/-- What the random module guarantees: randint lo hi lies in [lo, hi] and
random.random() lies in [0, 1). -/
def RNG.Valid (g : RNG) : Prop :=
  (∀ lo hi, lo ≤ hi → lo ≤ g.randint lo hi ∧ g.randint lo hi ≤ hi) ∧
  (∀ k, 0 ≤ g.random k ∧ g.random k < 1)

/-- One iteration of the inner while True loop of spawn_golfballs, with k the
index of the next unread random.random() value: draws x and y, then reaches
the bare break statement (the retry condition guarding the break is commented
out in the source), so the iteration always signals loop exit (true). -/
def innerLoopBody (g : RNG) (k : ℕ) : (ℚ × ℚ) × Bool :=
  let x := g.random k * dist - dist / 2
  let y := g.random (k + 1) * dist - dist / 2
  ((x, y), true)

/-- The inner while True loop run with the given fuel bound: returns the drawn
pair together with the number of iterations executed, or none if the fuel is
exhausted before the loop breaks. -/
def runInnerLoop (g : RNG) (k : ℕ) : ℕ → Option ((ℚ × ℚ) × ℕ)
  | 0 => none
  | fuel + 1 =>
    match innerLoopBody g k with
    | (xy, true) => some (xy, 1)
    | (_, false) =>
      match runInnerLoop g (k + 2) fuel with
      | some (xy, n) => some (xy, n + 1)
      | none => none

/-- The x and y coordinates drawn for ball i: the body of the inner loop reads
random values 2i and 2i+1 of the stream. -/
def drawXY (g : RNG) (i : ℕ) : ℚ × ℚ :=
  (innerLoopBody g (2 * i)).1

/-- The Python name f-string "ball{i}" for ball number i. -/
def ballName (i : ℕ) : String :=
  "ball" ++ toString i

/-- An entry of self.golfballs: the Point and the entity name. -/
abbrev GolfballInfo := Point × String

/-- The environment of external inputs CreateWorld depends on:
euler_to_quaternion and math.radians (imported functions whose values no claim
depends on), the text read from the model file of each key of
helpers.filepaths.model_paths, and the random module. -/
structure Env where
  euler_to_quaternion : ℚ → ℚ → ℚ → Quaternion
  radians : ℚ → ℚ
  modelXML : String → String
  rng : RNG

/-- The for-loop of spawn_golfballs, unrolled by recursion on the remaining
iteration count, with i the current loop index.  Each iteration draws (x, y)
with the inner while loop, which always breaks after its single draw since
the retry condition is commented out, builds the Point from the pose entries, appends
(point, name) to self.golfballs, and calls spawn.  Returns the final golfballs
list and the SpawnEntity requests issued, in order. -/
def spawn_golfballs_loop (env : Env) (i : ℕ) (remaining : ℕ)
    (golfballs : List GolfballInfo) :
    Except Exc (List GolfballInfo × List SpawnRequest) :=
  match remaining with
  | 0 => Except.ok (golfballs, [])
  | r + 1 =>
    let xy := drawXY env.rng i
    let pose : PoseDict :=
      { x := some xy.1, y := some xy.2, z := some 0, orientation := none }
    let name := ballName i
    let point : Point := { x := xy.1, y := xy.2, z := 0 }
    let golfballs := golfballs ++ [(point, name)]
    do
      let req ← spawn name (env.modelXML "golfball") pose
      let pr ← spawn_golfballs_loop env (i + 1) r golfballs
      Except.ok (pr.1, req :: pr.2)

/-- CreateWorld.spawn_golfballs: picks num_golfballs = randint(30, 60) and runs
the placement loop starting from the current self.golfballs list. -/
def spawn_golfballs (env : Env) (golfballs : List GolfballInfo) :
    Except Exc (List GolfballInfo × List SpawnRequest) :=
  spawn_golfballs_loop env 0 (env.rng.randint 30 60) golfballs

/-- CreateWorld.spawn_grass: one spawn at the origin with no orientation key. -/
def spawn_grass (env : Env) : Except Exc SpawnRequest :=
  spawn "grass" (env.modelXML "grass")
    { x := some 0, y := some 0, z := some 0, orientation := none }

/-- CreateWorld.spawn_tape: two spawns at the fixed coordinates; the second
pose carries an orientation from euler_to_quaternion(0, 0, radians(90)). -/
def spawn_tape (env : Env) : Except Exc (List SpawnRequest) := do
  let q := env.euler_to_quaternion 0 0 (env.radians 90)
  let r0 ← spawn "tape0" (env.modelXML "tape")
    { x := some (9898041 / 1000000), y := some (-8527939 / 1000000),
      z := some 0, orientation := none }
  let r1 ← spawn "tape1" (env.modelXML "tape")
    { x := some (8521017 / 1000000), y := some (-9901380 / 1000000),
      z := some 0, orientation := some q }
  Except.ok [r0, r1]

/-- CreateWorld.spawn_robot: one spawn named turtlebot with an orientation from
euler_to_quaternion(0, 0, radians(180)). -/
def spawn_robot (env : Env) : Except Exc SpawnRequest :=
  spawn "turtlebot" (env.modelXML "robot")
    { x := some 11, y := some (-11), z := some 0,
      orientation := some (env.euler_to_quaternion 0 0 (env.radians 180)) }

/-- CreateWorld.create_world: spawn_grass, spawn_tape, spawn_robot,
spawn_golfballs in that order (the spawn_border call is commented out in the
source).  Returns the golfballs list after the calls and the SpawnEntity
requests issued, in issue order. -/
def create_world (env : Env) (golfballs : List GolfballInfo) :
    Except Exc (List GolfballInfo × List SpawnRequest) := do
  let g ← spawn_grass env
  let t ← spawn_tape env
  let r ← spawn_robot env
  let pr ← spawn_golfballs env golfballs
  Except.ok (pr.1, g :: t ++ r :: pr.2)

/-- The SendGolfBallPoses request as filled in by publish_golfballs. -/
structure SGBPRequest where
  golfballs : List Point
  names : List String
  deriving Repr, DecidableEq

/-- CreateWorld.publish_golfballs, up to issuing the request: the statement
request.golfballs, request.names = zip(*self.golfballs) unzips the list of
(point, name) pairs into the two fields; on an empty list, unpacking the empty
zip raises ValueError.  The returned request is the one passed to
client.call_async, and it is the only call_async in the method. -/
def publish_golfballs (golfballs : List GolfballInfo) :
    Except Exc SGBPRequest :=
  match golfballs with
  | [] => Except.error (Exc.valueError "not enough values to unpack")
  | _ =>
    Except.ok { golfballs := golfballs.map Prod.fst,
                names := golfballs.map Prod.snd }

/-- A service request issued by CreateWorld, in the order of issue. -/
inductive Action where
  | spawnEntity (req : SpawnRequest)
  | sendGolfBallPoses (req : SGBPRequest)
  deriving Repr, DecidableEq

/-- Test for the SendGolfBallPoses action. -/
def Action.isSend : Action → Bool
  | .spawnEntity _ => false
  | .sendGolfBallPoses _ => true

/-- CreateWorld constructor after the service wait: self.golfballs = [];
self.create_world(); self.publish_golfballs().  Returns the trace of service
requests issued, in order. -/
def run_init (env : Env) : Except Exc (List Action) := do
  let pr ← create_world env []
  let sgbp ← publish_golfballs pr.1
  Except.ok (pr.2.map Action.spawnEntity ++ [Action.sendGolfBallPoses sgbp])

/-- Log severity levels used by the two scripts. -/
inductive Level where
  | info
  | warn
  | fatal
  deriving Repr, DecidableEq

/-- A logger call: severity and message. -/
structure LogEvent where
  level : Level
  msg : String
  deriving Repr, DecidableEq

/-- A SpawnEntity response held by a completed spawn future. -/
structure SpawnResponse where
  success : Bool
  status_message : String
  deriving Repr, DecidableEq

/-- Render a SpawnResponse the way the f-string in the info log shows it. -/
def SpawnResponse.render (r : SpawnResponse) : String :=
  "success: " ++ toString r.success ++ ", status_message: " ++ r.status_message

/-- A SendGolfBallPoses response held by a completed publish future. -/
structure SGBPResponse where
  success : Bool
  deriving Repr, DecidableEq

/-- The done-callback spawn_result inside CreateWorld.spawn.  Its argument is
the outcome of future.result(): a response, or the exception the call raised.
The whole body is a try/except Exception, so the callback itself never raises
(always ok) and performs no action other than the single log. -/
def spawn_result (name : String) (fut : Except Exc SpawnResponse) :
    Except Exc (List LogEvent) :=
  match fut with
  | Except.ok result =>
      Except.ok [{ level := Level.info, msg := "Result: " ++ result.render }]
  | Except.error e =>
      Except.ok [{ level := Level.warn,
                   msg := "Could not spawn " ++ name ++ ". Exception: " ++ e.msg }]

/-- The done-callback publish_golfballs_results inside publish_golfballs: on a
result with success false it raises a bare Exception, which the surrounding
except Exception catches like an exception from future.result(); either way it
logs one fatal message and never raises (always ok). -/
def publish_golfballs_results (fut : Except Exc SGBPResponse) :
    Except Exc (List LogEvent) :=
  match fut with
  | Except.ok response =>
      if response.success then
        Except.ok []
      else
        Except.ok [{ level := Level.fatal,
                     msg := "Could not send golf ball poses. Exception: " ++
                       (Exc.generic "").msg }]
  | Except.error e =>
      Except.ok [{ level := Level.fatal,
                   msg := "Could not send golf ball poses. Exception: " ++ e.msg }]

end SpawnDemo

namespace ClientDemo

open SpawnDemo (Exc Level LogEvent)

/-- The AddTwoInts request as filled in by send_request; it is the payload of
the single call_async in the script. -/
structure AddRequest where
  a : ℤ
  b : ℤ
  deriving Repr, DecidableEq

/-- The AddTwoInts response held by the completed future. -/
structure AddResponse where
  sum : ℤ
  deriving Repr, DecidableEq

/-- List indexing sys.argv[i]: raises IndexError when out of range. -/
def listIndex (argv : List String) (i : ℕ) : Except Exc String :=
  match argv[i]? with
  | some s => Except.ok s
  | none => Except.error Exc.indexError

/-- MinimalClientAsync.send_request: req.a = int(sys.argv[1]),
req.b = int(sys.argv[2]), then call_async(req).  The builtin int() parse is
the external function pyInt; the returned request is the one sent. -/
def send_request (pyInt : String → Except Exc ℤ) (argv : List String) :
    Except Exc AddRequest := do
  let s1 ← listIndex argv 1
  let a ← pyInt s1
  let s2 ← listIndex argv 2
  let b ← pyInt s2
  Except.ok { a := a, b := b }

/-- The try/except/else around future.result() in the main loop: logs the
failure message on an exception, the sum on success; catches Exception, so it
never raises (always ok). -/
def process_result (req : AddRequest) (fut : Except Exc AddResponse) :
    Except Exc (List LogEvent) :=
  match fut with
  | Except.error e =>
      Except.ok [{ level := Level.info,
                   msg := "Service call failed (" ++ e.msg ++ ",)" }]
  | Except.ok response =>
      Except.ok [{ level := Level.info,
                   msg := "Result of add_two_ints: for " ++ toString req.a ++
                     " + " ++ toString req.b ++ " = " ++ toString response.sum }]

/-- The polling loop of main: each pass calls spin_once and checks
future.done().  The external input futAt gives the observable state of the
future after the k-th spin: none while pending, some outcome once done.  The
fuel bounds the number of passes (rclpy.ok() turning false models exhaustion).
Returns the log events together with the number of times the result was
processed; the break runs right after the single processing. -/
def client_loop (futAt : ℕ → Option (Except Exc AddResponse))
    (req : AddRequest) (k : ℕ) : ℕ → Except Exc (List LogEvent × ℕ)
  | 0 => Except.ok ([], 0)
  | fuel + 1 =>
    match futAt k with
    | some r => do
        let logs ← process_result req r
        Except.ok (logs, 1)
    | none => client_loop futAt req (k + 1) fuel

/-- The main function after rclpy.init and node construction: send_request
fires the one call_async, then the polling loop runs.  Returns the list of
AddTwoInts requests issued (send_request is the only call_async in the
script), the logs, and the processing count. -/
def client_main (pyInt : String → Except Exc ℤ) (argv : List String)
    (futAt : ℕ → Option (Except Exc AddResponse)) (fuel : ℕ) :
    Except Exc (List AddRequest × List LogEvent × ℕ) := do
  let req ← send_request pyInt argv
  let pr ← client_loop futAt req 0 fuel
  Except.ok ([req], pr.1, pr.2)

end ClientDemo

namespace SpawnDemo

/-! Closed forms for the golf-ball loop and the fixed spawn requests, proved
equal to the embedded functions and used by the claim theorems. -/

/-- The Point built for ball i. -/
def ballPoint (g : RNG) (i : ℕ) : Point :=
  { x := (drawXY g i).1, y := (drawXY g i).2, z := 0 }

/-- The golfballs entry appended for ball i. -/
def ballEntry (g : RNG) (i : ℕ) : GolfballInfo :=
  (ballPoint g i, ballName i)

/-- The SpawnEntity request issued for ball i. -/
def ballReq (env : Env) (i : ℕ) : SpawnRequest :=
  { name := ballName i, xml := env.modelXML "golfball",
    position := ballPoint env.rng i, orientation := none }

/-- The SpawnEntity request issued by spawn_grass. -/
def grassReq (env : Env) : SpawnRequest :=
  { name := "grass", xml := env.modelXML "grass",
    position := { x := 0, y := 0, z := 0 }, orientation := none }

/-- The first SpawnEntity request issued by spawn_tape. -/
def tape0Req (env : Env) : SpawnRequest :=
  { name := "tape0", xml := env.modelXML "tape",
    position := { x := 9898041 / 1000000, y := -8527939 / 1000000, z := 0 },
    orientation := none }

/-- The second SpawnEntity request issued by spawn_tape. -/
def tape1Req (env : Env) : SpawnRequest :=
  { name := "tape1", xml := env.modelXML "tape",
    position := { x := 8521017 / 1000000, y := -9901380 / 1000000, z := 0 },
    orientation := some (env.euler_to_quaternion 0 0 (env.radians 90)) }

/-- The SpawnEntity request issued by spawn_robot. -/
def robotReq (env : Env) : SpawnRequest :=
  { name := "turtlebot", xml := env.modelXML "robot",
    position := { x := 11, y := -11, z := 0 },
    orientation := some (env.euler_to_quaternion 0 0 (env.radians 180)) }

theorem spawn_ok (name xml : String) (px py pz : ℚ) (orient : Option Quaternion) :
    spawn name xml { x := some px, y := some py, z := some pz, orientation := orient } =
      Except.ok { name := name, xml := xml,
                  position := { x := px, y := py, z := pz }, orientation := orient } := by
  cases orient <;> rfl

theorem spawn_golfballs_loop_eq (env : Env) (r : ℕ) : ∀ (i : ℕ) (gbs : List GolfballInfo),
    spawn_golfballs_loop env i r gbs =
      Except.ok (gbs ++ (List.range r).map (fun j => ballEntry env.rng (i + j)),
                 (List.range r).map (fun j => ballReq env (i + j))) := by
  induction r with
  | zero =>
    intro i gbs
    simp [spawn_golfballs_loop]
  | succ r ih =>
    intro i gbs
    have hstep : ∀ j : ℕ, i + 1 + j = i + (j + 1) := by omega
    simp [spawn_golfballs_loop, spawn_ok, ih (i + 1), List.range_succ_eq_map,
          List.map_map, Function.comp_def, hstep, ballEntry, ballReq, ballPoint,
          Bind.bind, Except.bind]

theorem spawn_golfballs_eq (env : Env) (gbs : List GolfballInfo) :
    spawn_golfballs env gbs =
      Except.ok (gbs ++ (List.range (env.rng.randint 30 60)).map (ballEntry env.rng),
                 (List.range (env.rng.randint 30 60)).map (ballReq env)) := by
  simp [spawn_golfballs, spawn_golfballs_loop_eq]

theorem create_world_eq (env : Env) :
    create_world env [] =
      Except.ok ((List.range (env.rng.randint 30 60)).map (ballEntry env.rng),
        grassReq env :: tape0Req env :: tape1Req env :: robotReq env ::
          (List.range (env.rng.randint 30 60)).map (ballReq env)) := by
  simp [create_world, spawn_grass, spawn_tape, spawn_robot, spawn_ok,
        spawn_golfballs_eq, grassReq, tape0Req, tape1Req, robotReq,
        Bind.bind, Except.bind]

theorem publish_golfballs_eq (gbs : List GolfballInfo) (h : gbs ≠ []) :
    publish_golfballs gbs =
      Except.ok { golfballs := gbs.map Prod.fst, names := gbs.map Prod.snd } := by
  cases gbs with
  | nil => exact absurd rfl h
  | cons a l => rfl

theorem run_init_eq (env : Env) (h : 1 ≤ env.rng.randint 30 60) :
    run_init env =
      Except.ok ((grassReq env :: tape0Req env :: tape1Req env :: robotReq env ::
          (List.range (env.rng.randint 30 60)).map (ballReq env)).map Action.spawnEntity ++
        [Action.sendGolfBallPoses
          { golfballs := ((List.range (env.rng.randint 30 60)).map (ballEntry env.rng)).map Prod.fst,
            names := ((List.range (env.rng.randint 30 60)).map (ballEntry env.rng)).map Prod.snd }]) := by
  have hne : (List.range (env.rng.randint 30 60)).map (ballEntry env.rng) ≠ [] := by
    simp [List.map_eq_nil_iff, List.range_eq_nil]
    omega
  simp [run_init, create_world_eq, publish_golfballs_eq _ hne, Bind.bind, Except.bind]

/-- A concrete random module instance used by the witnesses: randint returns
its lower bound and random.random always returns 0. -/
def testRng : RNG :=
  { randint := fun lo _ => lo, random := fun _ => 0 }

theorem testRng_valid : testRng.Valid :=
  ⟨fun lo _ h => ⟨Nat.le_refl lo, h⟩, fun _ => ⟨le_refl 0, by norm_num [testRng]⟩⟩

/-- A concrete environment used by the witnesses. -/
def testEnv : Env :=
  { euler_to_quaternion := fun _ _ _ => { x := 0, y := 0, z := 0, w := 1 },
    radians := fun q => q,
    modelXML := fun _ => "",
    rng := testRng }

/-- C1: for every run of publish_golfballs after spawn_golfballs has completed,
exactly one SendGolfBallPoses request is sent, and that request has the
sequence of Point positions as its golfballs field and the sequence of names
as its names field, in the same order and with the same pairing as the
(position, name) entries appended to self.golfballs by spawn_golfballs. -/
theorem publish_sends_spawned_pairs (env : Env) (h : env.rng.Valid) :
    ∃ gbs reqs sgbp trace,
      create_world env [] = Except.ok (gbs, reqs) ∧
      publish_golfballs gbs = Except.ok sgbp ∧
      run_init env = Except.ok trace ∧
      trace.filter Action.isSend = [Action.sendGolfBallPoses sgbp] ∧
      sgbp.golfballs = gbs.map Prod.fst ∧
      sgbp.names = gbs.map Prod.snd := by
  have h30 := (h.1 30 60 (by norm_num)).1
  have hne : (List.range (env.rng.randint 30 60)).map (ballEntry env.rng) ≠ [] := by
    simp [List.map_eq_nil_iff, List.range_eq_nil]
    omega
  refine ⟨_, _, _, _, create_world_eq env, publish_golfballs_eq _ hne,
    run_init_eq env (by omega), ?_, rfl, rfl⟩
  simp [List.filter_append, List.filter_map, Function.comp_def, Action.isSend]

/-- C1 witness at the concrete environment testEnv. -/
theorem publish_sends_spawned_pairs_witness :
    testEnv.rng.Valid ∧
    ∃ gbs reqs sgbp trace,
      create_world testEnv [] = Except.ok (gbs, reqs) ∧
      publish_golfballs gbs = Except.ok sgbp ∧
      run_init testEnv = Except.ok trace ∧
      trace.filter Action.isSend = [Action.sendGolfBallPoses sgbp] ∧
      sgbp.golfballs = gbs.map Prod.fst ∧
      sgbp.names = gbs.map Prod.snd :=
  ⟨testRng_valid, publish_sends_spawned_pairs testEnv testRng_valid⟩

/-- C2: every golf ball generated by spawn_golfballs has x and y drawn from the
half-open interval from -dist/2 inclusive to dist/2 exclusive, with dist the
value feet_to_meters 75, so every ball lies inside the axis-aligned square of
side dist centred at the origin, and its z coordinate is 0. -/
theorem golfballs_inside_square (env : Env) (h : env.rng.Valid) :
    ∃ gbs reqs, spawn_golfballs env [] = Except.ok (gbs, reqs) ∧
      ∀ p, p ∈ gbs →
        -(dist / 2) ≤ p.1.x ∧ p.1.x < dist / 2 ∧
        -(dist / 2) ≤ p.1.y ∧ p.1.y < dist / 2 ∧ p.1.z = 0 := by
  have hsg := spawn_golfballs_eq env []
  rw [List.nil_append] at hsg
  refine ⟨_, _, hsg, ?_⟩
  intro p hp
  simp only [List.mem_map, List.mem_range] at hp
  obtain ⟨j, _, rfl⟩ := hp
  have hdist : (0 : ℚ) < dist := by norm_num [dist, feet_to_meters]
  obtain ⟨hx0, hx1⟩ := h.2 (2 * j)
  obtain ⟨hy0, hy1⟩ := h.2 (2 * j + 1)
  have hxl : 0 ≤ env.rng.random (2 * j) * dist := mul_nonneg hx0 hdist.le
  have hxu : env.rng.random (2 * j) * dist < dist :=
    (mul_lt_iff_lt_one_left hdist).mpr hx1
  have hyl : 0 ≤ env.rng.random (2 * j + 1) * dist := mul_nonneg hy0 hdist.le
  have hyu : env.rng.random (2 * j + 1) * dist < dist :=
    (mul_lt_iff_lt_one_left hdist).mpr hy1
  simp only [ballEntry, ballPoint, drawXY, innerLoopBody]
  refine ⟨by linarith, by linarith, by linarith, by linarith, trivial⟩

/-- C2 witness at the concrete environment testEnv. -/
theorem golfballs_inside_square_witness :
    testEnv.rng.Valid ∧
    ∃ gbs reqs, spawn_golfballs testEnv [] = Except.ok (gbs, reqs) ∧
      ∀ p, p ∈ gbs →
        -(dist / 2) ≤ p.1.x ∧ p.1.x < dist / 2 ∧
        -(dist / 2) ≤ p.1.y ∧ p.1.y < dist / 2 ∧ p.1.z = 0 :=
  ⟨testRng_valid, golfballs_inside_square testEnv testRng_valid⟩

/-- C3: the inner while loop of spawn_golfballs always terminates after exactly
one iteration, returning the single pair of draws it makes, for any fuel bound
of at least one pass: the retry condition is commented out, so no candidate is
ever rejected or redrawn. -/
theorem inner_loop_always_one_iteration (g : RNG) (k fuel : ℕ) (h : 1 ≤ fuel) :
    runInnerLoop g k fuel =
      some ((g.random k * dist - dist / 2, g.random (k + 1) * dist - dist / 2), 1) := by
  cases fuel with
  | zero => omega
  | succ f => rfl

/-- C3 witness at a concrete random module, zero start index and fuel one. -/
theorem inner_loop_always_one_iteration_witness :
    1 ≤ 1 ∧
    runInnerLoop testRng 0 1 =
      some ((testRng.random 0 * dist - dist / 2,
             testRng.random (0 + 1) * dist - dist / 2), 1) :=
  ⟨le_refl 1, inner_loop_always_one_iteration testRng 0 1 (le_refl 1)⟩

/-- C4: whenever retrieving a completed future result raises an exception, in
the addition client main loop, in the spawn done-callback, or in the
publish_golfballs done-callback, the generic except catches it and logs one
failure message; the handler returns normally (ok) so nothing propagates, and
its only output is the log, so no retry or recovery is attempted. -/
theorem future_exception_caught_and_logged
    (name : String) (e : Exc) (req : ClientDemo.AddRequest) :
    spawn_result name (Except.error e) =
      Except.ok [{ level := Level.warn,
                   msg := "Could not spawn " ++ name ++ ". Exception: " ++ e.msg }] ∧
    publish_golfballs_results (Except.error e) =
      Except.ok [{ level := Level.fatal,
                   msg := "Could not send golf ball poses. Exception: " ++ e.msg }] ∧
    ClientDemo.process_result req (Except.error e) =
      Except.ok [{ level := Level.info,
                   msg := "Service call failed (" ++ e.msg ++ ",)" }] :=
  ⟨rfl, rfl, rfl⟩

/-- C5: the constructor issues SpawnEntity requests for the robot, the grass,
the two tape strips and every golf ball, and the single SendGolfBallPoses
request is the last element of the request trace, strictly after every
SpawnEntity request. -/
theorem publish_after_all_spawns (env : Env) (h : env.rng.Valid) :
    ∃ (reqs : List SpawnRequest) (sgbp : SGBPRequest),
      run_init env =
        Except.ok (reqs.map Action.spawnEntity ++ [Action.sendGolfBallPoses sgbp]) ∧
      "grass" ∈ reqs.map SpawnRequest.name ∧
      "tape0" ∈ reqs.map SpawnRequest.name ∧
      "tape1" ∈ reqs.map SpawnRequest.name ∧
      "turtlebot" ∈ reqs.map SpawnRequest.name ∧
      ∀ i, i < env.rng.randint 30 60 → ballName i ∈ reqs.map SpawnRequest.name := by
  have h30 := (h.1 30 60 (by norm_num)).1
  refine ⟨_, _, run_init_eq env (by omega), ?_, ?_, ?_, ?_, ?_⟩
  · simp [grassReq]
  · simp [tape0Req]
  · simp [tape1Req]
  · simp [robotReq]
  · intro i hi
    simp only [List.map_cons, List.mem_cons, List.map_map]
    refine Or.inr (Or.inr (Or.inr (Or.inr ?_)))
    exact List.mem_map.mpr ⟨i, List.mem_range.mpr hi, rfl⟩

/-- C5 witness at the concrete environment testEnv. -/
theorem publish_after_all_spawns_witness :
    testEnv.rng.Valid ∧
    ∃ (reqs : List SpawnRequest) (sgbp : SGBPRequest),
      run_init testEnv =
        Except.ok (reqs.map Action.spawnEntity ++ [Action.sendGolfBallPoses sgbp]) ∧
      "grass" ∈ reqs.map SpawnRequest.name ∧
      "tape0" ∈ reqs.map SpawnRequest.name ∧
      "tape1" ∈ reqs.map SpawnRequest.name ∧
      "turtlebot" ∈ reqs.map SpawnRequest.name ∧
      ∀ i, i < testEnv.rng.randint 30 60 → ballName i ∈ reqs.map SpawnRequest.name :=
  ⟨testRng_valid, publish_after_all_spawns testEnv testRng_valid⟩

/-- C8: spawn_golfballs appends between 30 and 60 entries inclusive to the
golfballs list, so the list is non-empty and the unpacking of
zip(*self.golfballs) in publish_golfballs succeeds. -/
theorem golfball_count_in_range (env : Env) (h : env.rng.Valid) :
    ∃ gbs reqs sgbp,
      spawn_golfballs env [] = Except.ok (gbs, reqs) ∧
      30 ≤ gbs.length ∧ gbs.length ≤ 60 ∧
      publish_golfballs gbs = Except.ok sgbp := by
  obtain ⟨h30, h60⟩ := h.1 30 60 (by norm_num)
  have hsg := spawn_golfballs_eq env []
  rw [List.nil_append] at hsg
  have hne : (List.range (env.rng.randint 30 60)).map (ballEntry env.rng) ≠ [] := by
    simp [List.map_eq_nil_iff, List.range_eq_nil]
    omega
  refine ⟨_, _, _, hsg, ?_, ?_, publish_golfballs_eq _ hne⟩
  · simp
    omega
  · simp
    omega

/-- C8 witness at the concrete environment testEnv. -/
theorem golfball_count_in_range_witness :
    testEnv.rng.Valid ∧
    ∃ gbs reqs sgbp,
      spawn_golfballs testEnv [] = Except.ok (gbs, reqs) ∧
      30 ≤ gbs.length ∧ gbs.length ≤ 60 ∧
      publish_golfballs gbs = Except.ok sgbp :=
  ⟨testRng_valid, golfball_count_in_range testEnv testRng_valid⟩

/-- C9: spawn on a pose dict without an orientation key does not raise: the
KeyError is caught, the request keeps the default orientation (none), and the
position fields from the x, y and z entries are sent unchanged. -/
theorem spawn_without_orientation_ok (name xml : String) (px py pz : ℚ) :
    spawn name xml { x := some px, y := some py, z := some pz, orientation := none } =
      Except.ok { name := name, xml := xml,
                  position := { x := px, y := py, z := pz },
                  orientation := none } :=
  rfl

/-- C10: within a single run every SpawnEntity request carries a distinct
entity name: grass, tape0, tape1, turtlebot and the ball names are pairwise
distinct. -/
theorem spawn_names_distinct (env : Env) (h : env.rng.Valid) :
    ∃ gbs reqs, create_world env [] = Except.ok (gbs, reqs) ∧
      (reqs.map SpawnRequest.name).Nodup := by
  obtain ⟨h30, h60⟩ := h.1 30 60 (by norm_num)
  refine ⟨_, _, create_world_eq env, ?_⟩
  have hfull : (["grass", "tape0", "tape1", "turtlebot"] ++
      (List.range 60).map ballName).Nodup := by decide
  have hsub : List.Sublist
      (["grass", "tape0", "tape1", "turtlebot"] ++
        (List.range (env.rng.randint 30 60)).map ballName)
      (["grass", "tape0", "tape1", "turtlebot"] ++
        (List.range 60).map ballName) :=
    ((List.range_sublist.mpr h60).map ballName).append_left _
  have hnames : ((grassReq env :: tape0Req env :: tape1Req env :: robotReq env ::
      (List.range (env.rng.randint 30 60)).map (ballReq env)).map SpawnRequest.name) =
      ["grass", "tape0", "tape1", "turtlebot"] ++
        (List.range (env.rng.randint 30 60)).map ballName := by
    simp [grassReq, tape0Req, tape1Req, robotReq, ballReq, List.map_map,
          Function.comp_def]
  rw [hnames]
  exact hfull.sublist hsub

/-- C10 witness at the concrete environment testEnv. -/
theorem spawn_names_distinct_witness :
    testEnv.rng.Valid ∧
    ∃ gbs reqs, create_world testEnv [] = Except.ok (gbs, reqs) ∧
      (reqs.map SpawnRequest.name).Nodup :=
  ⟨testRng_valid, spawn_names_distinct testEnv testRng_valid⟩

end SpawnDemo

namespace ClientDemo

open SpawnDemo (Exc)

theorem client_loop_processes_once (futAt : ℕ → Option (Except Exc AddResponse))
    (req : AddRequest) :
    ∀ (fuel k : ℕ), (∃ j, k ≤ j ∧ j < k + fuel ∧ futAt j ≠ none) →
      ∃ logs, client_loop futAt req k fuel = Except.ok (logs, 1) ∧ logs.length = 1 := by
  intro fuel
  induction fuel with
  | zero =>
    intro k h
    obtain ⟨j, hj1, hj2, _⟩ := h
    omega
  | succ f ih =>
    intro k h
    obtain ⟨j, hj1, hj2, hj3⟩ := h
    cases hfk : futAt k with
    | some r =>
      cases r with
      | ok resp =>
        refine ⟨[⟨SpawnDemo.Level.info, "Result of add_two_ints: for " ++
          toString req.a ++ " + " ++ toString req.b ++ " = " ++
          toString resp.sum⟩], ?_, rfl⟩
        simp [client_loop, hfk, process_result, Bind.bind, Except.bind]
      | error e =>
        refine ⟨[⟨SpawnDemo.Level.info,
          "Service call failed (" ++ e.msg ++ ",)"⟩], ?_, rfl⟩
        simp [client_loop, hfk, process_result, Bind.bind, Except.bind]
    | none =>
      have hjk : j ≠ k := fun hh => hj3 (hh ▸ hfk)
      have hloop : client_loop futAt req k (f + 1) = client_loop futAt req (k + 1) f := by
        simp [client_loop, hfk]
      rw [hloop]
      exact ih (k + 1) ⟨j, by omega, by omega, hj3⟩

/-- C6: the addition client fires exactly one asynchronous request, polls until
the future is done, processes the result exactly once and exits the loop: when
the future is observed done within the fuel bound, the run returns the single
request fired by send_request, one processing log, and a processing count of
exactly one. -/
theorem client_single_request_single_process
    (pyInt : String → Except Exc ℤ) (argv : List String)
    (futAt : ℕ → Option (Except Exc AddResponse)) (fuel j : ℕ) (req : AddRequest)
    (hreq : send_request pyInt argv = Except.ok req)
    (hj : j < fuel) (hdone : futAt j ≠ none) :
    ∃ logs, client_main pyInt argv futAt fuel = Except.ok ([req], logs, 1) ∧
      logs.length = 1 := by
  obtain ⟨logs, hl, hlen⟩ :=
    client_loop_processes_once futAt req fuel 0 ⟨j, Nat.zero_le j, by omega, hdone⟩
  exact ⟨logs, by simp [client_main, hreq, hl, Bind.bind, Except.bind], hlen⟩

/-- A concrete stand-in for the builtin int() used by the witnesses, correct
on the argument strings they pass. -/
def testPyInt (s : String) : Except Exc ℤ :=
  if s = "4" then Except.ok 4
  else if s = "5" then Except.ok 5
  else Except.error (Exc.valueError s)

/-- A concrete future observation used by the C6 witness: done after the first
spin with sum 9. -/
def testFutAt (_ : ℕ) : Option (Except Exc AddResponse) :=
  some (Except.ok { sum := 9 })

/-- C6 witness at concrete arguments: the future is done after the first spin. -/
theorem client_single_request_single_process_witness :
    send_request testPyInt ["prog", "4", "5"] = Except.ok { a := 4, b := 5 } ∧
    0 < 1 ∧
    testFutAt 0 ≠ none ∧
    ∃ logs, client_main testPyInt ["prog", "4", "5"] testFutAt 1 =
          Except.ok ([{ a := 4, b := 5 }], logs, 1) ∧ logs.length = 1 :=
  ⟨rfl, Nat.zero_lt_one, by simp [testFutAt],
   client_single_request_single_process testPyInt ["prog", "4", "5"]
     testFutAt 1 0 { a := 4, b := 5 }
     rfl Nat.zero_lt_one (by simp [testFutAt])⟩

/-- C7: send_request sets the request fields a and b to the integer parses of
the first and second command-line arguments, so the request sent to the
addition service is exactly that pair of integers. -/
theorem send_request_uses_argv (pyInt : String → Except Exc ℤ) (argv : List String)
    (s1 s2 : String) (a b : ℤ)
    (h1 : argv[1]? = some s1) (h2 : argv[2]? = some s2)
    (ha : pyInt s1 = Except.ok a) (hb : pyInt s2 = Except.ok b) :
    send_request pyInt argv = Except.ok { a := a, b := b } := by
  simp [send_request, listIndex, h1, h2, ha, hb, Bind.bind, Except.bind]

/-- C7 witness at concrete command-line arguments. -/
theorem send_request_uses_argv_witness :
    (["prog", "4", "5"] : List String)[1]? = some "4" ∧
    (["prog", "4", "5"] : List String)[2]? = some "5" ∧
    testPyInt "4" = Except.ok 4 ∧
    testPyInt "5" = Except.ok 5 ∧
    send_request testPyInt ["prog", "4", "5"] = Except.ok { a := 4, b := 5 } :=
  ⟨rfl, rfl, rfl, rfl,
   send_request_uses_argv testPyInt ["prog", "4", "5"] "4" "5" 4 5 rfl rfl rfl rfl⟩

end ClientDemo
